import Mathlib

/-!
Verification of the order-placement flow of the Manga.de backend
(src/main.py, src/schemas.py).

Modelling conventions:
* Python float arithmetic on prices and totals is modelled exactly over ℚ;
  floating-point rounding is not modelled.
* MongoDB documents of the `product` collection always carry the fields of the
  pydantic `Product` model (title, price, stock), since documents enter the
  collection through that model; the `.get` defaults of src/main.py are
  therefore never exercised and the fields are plain record fields here.
* A raised `HTTPException` is modelled as an `Except.error` carrying the
  status code and detail string; the database state is returned unchanged in
  that case, as in FastAPI where the exception aborts the handler before any
  write.
-/

namespace Shop

/-- A FastAPI `HTTPException`: status code and detail message. -/
structure HTTPError where
  status : Nat
  detail : String
deriving DecidableEq, Repr

/-- Hexadecimal digit test, used to model `bson.ObjectId` parsing. -/
def isHexDigit (c : Char) : Bool :=
  c.isDigit || (('a' ≤ c) && (c ≤ 'f')) || (('A' ≤ c) && (c ≤ 'F'))

/-- A string is accepted by the `bson.ObjectId` constructor iff it consists of
exactly 24 hexadecimal characters. -/
def isValidOid (s : String) : Bool :=
  (s.data.length == 24) && s.data.all isHexDigit

/-- src/main.py `oid` (lines 32-36): parse an id string as an ObjectId.  The
parse result is returned; `none` corresponds to the branch that raises
`HTTPException(400, "Invalid id")`. -/
def oid (id_str : String) : Option String :=
  if isValidOid id_str then some id_str else none

/-- src/schemas.py `Product` (lines 49-54): the pydantic model of the
`product` collection.  Note that no field carries a sign constraint. -/
structure Product where
  title : String
  description : Option String := some ""
  price : ℚ
  image : Option String := some ""
  stock : Int := 0
deriving DecidableEq, Repr

/-- One element of `Order.items` (src/schemas.py line 58:
`items: List[dict]  # [\x7bproduct_id, quantity\x7d]`).  The dict is
unvalidated: the quantity may be absent (`item.get("quantity", 1)` in
src/main.py) and, when present, may be any integer. -/
structure OrderItem where
  product_id : String
  quantity : Option Int := none
deriving DecidableEq, Repr

/-- src/schemas.py `Order` (lines 56-60): the pydantic model that is both the
request body of POST /orders and the persisted document of the `order`
collection.  `status` defaults to "pending" but a client-supplied value is
accepted by the model. -/
structure Order where
  user_id : String
  items : List OrderItem
  total : ℚ
  status : String := "pending"
deriving DecidableEq, Repr

/-- Modelled from the spec: the document database (`database.py` is imported
by src/main.py but is not part of the sources).  Per the spec, the flow uses
"Catalog Lookup — findById(productId) -> Product | not-found" and
"Persistence — insert(collection, document) -> generatedId".  The product
collection is an association list from ObjectId strings to products and the
order collection is the list of inserted order documents. -/
structure DB where
  products : List (String × Product)
  orders : List Order
deriving DecidableEq, Repr

/-- Mongo lookup `db["product"].find_one(...)` with an `_id` filter: the first
product stored under that id, if any. -/
def findProduct (db : DB) (k : String) : Option Product :=
  db.products.lookup k

/-- Modelled from the spec: the generated id of an inserted document
("insert(collection, document) -> generatedId").  Mongo generates a fresh
ObjectId; it is modelled deterministically as the hexadecimal representation
of the collection size, zero-padded to 24 characters. -/
def freshOid (n : Nat) : String :=
  let ds := Nat.toDigits 16 n
  String.mk (List.replicate (24 - ds.length) '0' ++ ds)

/-- Modelled from the spec: `create_document("order", order)` appends the
document to the order collection and returns the generated id. -/
def insertOrder (db : DB) (o : Order) : String × DB :=
  (freshOid db.orders.length, { db with orders := db.orders ++ [o] })

/-- src/main.py `create_product` (POST /products, lines 182-185): insert the
product exactly as given.  Beyond the pydantic field types there is no
validation; in particular no sign check on price or stock. -/
def create_product (db : DB) (p : Product) : String × DB :=
  let new_id := freshOid db.products.length
  (new_id, { db with products := db.products ++ [(new_id, p)] })

/-- The loop of src/main.py `create_order` (lines 195-202), threading the
running total.  For each item in order: parse the id (400 "Invalid id" on
failure), look the product up (404 if absent), compare stock against the
quantity (400 if insufficient), and accumulate `price * quantity`; the
quantity defaults to 1 when the dict omits it. -/
def processItems (db : DB) : List OrderItem → ℚ → Except HTTPError ℚ
  | [], total => .ok total
  | item :: rest, total =>
    match oid item.product_id with
    | none => .error ⟨400, "Invalid id"⟩
    | some k =>
      match findProduct db k with
      | none => .error ⟨404, "Product " ++ item.product_id ++ " not found"⟩
      | some product =>
        if product.stock < item.quantity.getD 1 then
          .error ⟨400, "Insufficient stock for " ++ product.title⟩
        else
          processItems db rest (total + product.price * (item.quantity.getD 1 : ℚ))

/-- src/main.py `create_order` (POST /orders, lines 192-205): run the loop
starting from `total = 0.0`; on success overwrite `order.total` with the
computed total, insert the document and answer with the generated id and the
total; on an HTTPException the state is untouched. -/
def create_order (db : DB) (order : Order) : DB × Except HTTPError (String × ℚ) :=
  match processItems db order.items 0 with
  | .error e => (db, .error e)
  | .ok total =>
    let o := { order with total := total }
    let r := insertOrder db o
    (r.2, .ok (r.1, total))

/-- What processing a single line item yields in isolation: `none` when it
passes the id parse, the lookup and the stock check; `some e` when it raises
the HTTPException `e`. -/
def itemFailure (db : DB) (item : OrderItem) : Option HTTPError :=
  match oid item.product_id with
  | none => some ⟨400, "Invalid id"⟩
  | some k =>
    match findProduct db k with
    | none => some ⟨404, "Product " ++ item.product_id ++ " not found"⟩
    | some product =>
      if product.stock < item.quantity.getD 1 then
        some ⟨400, "Insufficient stock for " ++ product.title⟩
      else none

/-- The product a line item resolves to: its id must parse and be present in
the catalog. -/
def lookupItem (db : DB) (item : OrderItem) : Option Product :=
  (oid item.product_id).bind (findProduct db)

/-- The contribution `price * quantity` of a line item to the total (0 when
the item does not resolve; passing items always resolve). -/
def contribution (db : DB) (item : OrderItem) : ℚ :=
  match lookupItem db item with
  | none => 0
  | some p => p.price * (item.quantity.getD 1 : ℚ)

/-! ### Concrete values reused across witnesses and counterexamples -/

/-- A well-formed ObjectId naming product A in the examples. -/
def pidA : String := "aaaaaaaaaaaaaaaaaaaaaaaa"

/-- A well-formed ObjectId naming product B in the examples. -/
def pidB : String := "bbbbbbbbbbbbbbbbbbbbbbbb"

/-- A well-formed ObjectId absent from every example catalog. -/
def pidC : String := "cccccccccccccccccccccccc"

/-- The id generated for the first insert into an empty collection. -/
def oid0 : String := "000000000000000000000000"

/-- Product A of the spec scenarios: price 10.00, stock 5. -/
def prodA : Product := { title := "A", price := 10, stock := 5 }

/-- Product B of the spec scenario 5: price 3.50, stock 0. -/
def prodB : Product := { title := "B", price := 7 / 2, stock := 0 }

/-- Example catalog holding product A alone. -/
def dbA : DB := { products := [(pidA, prodA)], orders := [] }

/-- Example catalog holding products A and B. -/
def dbAB : DB := { products := [(pidA, prodA), (pidB, prodB)], orders := [] }

/-! ### Structural lemmas about the validation loop -/

/-- One step of the loop, phrased through `itemFailure` and `contribution`. -/
theorem processItems_cons (db : DB) (item : OrderItem) (rest : List OrderItem) (t : ℚ) :
    processItems db (item :: rest) t =
      match itemFailure db item with
      | some e => .error e
      | none => processItems db rest (t + contribution db item) := by
  cases ho : oid item.product_id with
  | none => simp [processItems, itemFailure, ho]
  | some k =>
    cases hp : findProduct db k with
    | none => simp [processItems, itemFailure, ho, hp]
    | some p =>
      by_cases hs : p.stock < item.quantity.getD 1
      · simp [processItems, itemFailure, ho, hp, hs]
      · simp [processItems, itemFailure, contribution, lookupItem, ho, hp, hs]

/-- A passing head item steps the loop to the tail, adding its contribution. -/
theorem processItems_cons_pass (db : DB) (item : OrderItem) (rest : List OrderItem)
    (t : ℚ) (h : itemFailure db item = none) :
    processItems db (item :: rest) t = processItems db rest (t + contribution db item) := by
  rw [processItems_cons, h]

/-- A failing head item aborts the loop with exactly its failure. -/
theorem processItems_cons_fail (db : DB) (item : OrderItem) (rest : List OrderItem)
    (t : ℚ) (e : HTTPError) (h : itemFailure db item = some e) :
    processItems db (item :: rest) t = .error e := by
  rw [processItems_cons, h]

/-- When every item passes, the loop returns the start value plus the sum of
the contributions. -/
theorem processItems_all_pass (db : DB) :
    ∀ (items : List OrderItem) (t : ℚ), (∀ x ∈ items, itemFailure db x = none) →
      processItems db items t = .ok (t + (items.map (contribution db)).sum) := by
  intro items
  induction items with
  | nil => intro t _; simp [processItems]
  | cons item rest ih =>
    intro t h
    rw [processItems_cons_pass db item rest t (h item (List.mem_cons_self item rest))]
    rw [ih _ (fun x hx => h x (List.mem_cons_of_mem item hx))]
    simp [add_assoc]

/-- Inversion: if the loop succeeds, every item passed and the result is the
start value plus the sum of the contributions. -/
theorem processItems_ok_inv (db : DB) :
    ∀ (items : List OrderItem) (t T : ℚ), processItems db items t = .ok T →
      (∀ x ∈ items, itemFailure db x = none) ∧
        T = t + (items.map (contribution db)).sum := by
  intro items
  induction items with
  | nil =>
    intro t T h
    simp [processItems] at h
    simp [h]
  | cons item rest ih =>
    intro t T h
    cases hf : itemFailure db item with
    | some e => rw [processItems_cons_fail db item rest t e hf] at h; exact absurd h (by simp)
    | none =>
      rw [processItems_cons_pass db item rest t hf] at h
      obtain ⟨hall, hT⟩ := ih _ _ h
      refine ⟨?_, ?_⟩
      · intro x hx
        rcases List.mem_cons.mp hx with hx | hx
        · rw [hx]; exact hf
        · exact hall x hx
      · rw [hT]; simp [add_assoc]

/-- If every item of a prefix passes and the next item fails, the loop aborts
with exactly that failure: the error is decided by the earliest failing item
and the items after it are never consulted. -/
theorem processItems_prefix_fail (db : DB) :
    ∀ (pre : List OrderItem) (item : OrderItem) (post : List OrderItem) (t : ℚ) (e : HTTPError),
      (∀ x ∈ pre, itemFailure db x = none) → itemFailure db item = some e →
      processItems db (pre ++ item :: post) t = .error e := by
  intro pre
  induction pre with
  | nil => intro item post t e _ hf; simpa using processItems_cons_fail db item post t e hf
  | cons x rest ih =>
    intro item post t e hpre hf
    rw [List.cons_append,
      processItems_cons_pass db x (rest ++ item :: post) t (hpre x (List.mem_cons_self x rest))]
    exact ih item post _ e (fun y hy => hpre y (List.mem_cons_of_mem x hy)) hf

/-- `create_order` on a request whose items all pass: the order is appended
with the computed total and the response carries the generated id and that
total. -/
theorem create_order_ok (db : DB) (order : Order)
    (h : ∀ x ∈ order.items, itemFailure db x = none) :
    create_order db order =
      ({ db with orders := db.orders ++
          [{ order with total := (order.items.map (contribution db)).sum }] },
        .ok (freshOid db.orders.length, (order.items.map (contribution db)).sum)) := by
  have hp := processItems_all_pass db order.items 0 h
  rw [zero_add] at hp
  simp [create_order, hp, insertOrder]

/-- `create_order` on a request whose earliest failing item raises `e`:
the state is untouched and `e` is surfaced. -/
theorem create_order_first_fail (db : DB) (order : Order)
    (pre : List OrderItem) (item : OrderItem) (post : List OrderItem) (e : HTTPError)
    (hitems : order.items = pre ++ item :: post)
    (hpre : ∀ x ∈ pre, itemFailure db x = none)
    (hf : itemFailure db item = some e) :
    create_order db order = (db, .error e) := by
  have hp : processItems db order.items 0 = .error e := by
    rw [hitems]; exact processItems_prefix_fail db pre item post 0 e hpre hf
  simp [create_order, hp]

/-- If any item of the request fails, `create_order` errors out with the
state untouched. -/
theorem create_order_error_of_fail (db : DB) (order : Order) (item : OrderItem)
    (hmem : item ∈ order.items) (hf : itemFailure db item ≠ none) :
    ∃ e, create_order db order = (db, .error e) := by
  cases hres : processItems db order.items 0 with
  | error e => exact ⟨e, by simp [create_order, hres]⟩
  | ok T => exact absurd ((processItems_ok_inv db order.items 0 T hres).1 item hmem) hf

/-- An item passes exactly when its id resolves to a product with stock at
least the effective quantity. -/
theorem itemFailure_eq_none_iff (db : DB) (item : OrderItem) :
    itemFailure db item = none ↔
      ∃ p, lookupItem db item = some p ∧ item.quantity.getD 1 ≤ p.stock := by
  unfold itemFailure lookupItem
  cases ho : oid item.product_id with
  | none => simp
  | some k =>
    cases hp : findProduct db k with
    | none => simp [hp]
    | some p =>
      by_cases hs : p.stock < item.quantity.getD 1
      · simp [hp, hs, not_le.mpr hs]
      · simp [hp, hs, not_lt.mp hs]

/-- A failing item with a resolving id and insufficient stock raises exactly
the 400 insufficient-stock error with the product title. -/
theorem itemFailure_insufficient (db : DB) (item : OrderItem) (p : Product)
    (hp : lookupItem db item = some p) (hs : p.stock < item.quantity.getD 1) :
    itemFailure db item = some ⟨400, "Insufficient stock for " ++ p.title⟩ := by
  unfold itemFailure
  unfold lookupItem at hp
  cases ho : oid item.product_id with
  | none => rw [ho] at hp; simp at hp
  | some k =>
    rw [ho] at hp
    simp only [Option.some_bind] at hp
    simp [hp, hs]

/-- An item whose id resolves to no catalog entry raises exactly the 404. -/
theorem itemFailure_not_found (db : DB) (item : OrderItem) (k : String)
    (ho : oid item.product_id = some k) (hp : findProduct db k = none) :
    itemFailure db item = some ⟨404, "Product " ++ item.product_id ++ " not found"⟩ := by
  unfold itemFailure
  simp [ho, hp]

/-- An item whose id does not parse raises exactly the 400 invalid-id error. -/
theorem itemFailure_invalid (db : DB) (item : OrderItem)
    (ho : oid item.product_id = none) :
    itemFailure db item = some ⟨400, "Invalid id"⟩ := by
  unfold itemFailure
  simp [ho]

/-- A successful lookup points at a product stored in the catalog. -/
theorem lookup_mem :
    ∀ {l : List (String × Product)} {k : String} {p : Product},
      l.lookup k = some p → ∃ k2, (k2, p) ∈ l := by
  intro l
  induction l with
  | nil => intro k p h; simp [List.lookup] at h
  | cons kv rest ih =>
    intro k p h
    obtain ⟨k2, v⟩ := kv
    rw [List.lookup] at h
    cases hk : (k == k2) with
    | true =>
      rw [hk] at h
      simp at h
      exact ⟨k2, by simp [h]⟩
    | false =>
      rw [hk] at h
      simp at h
      obtain ⟨k3, hm⟩ := ih h
      exact ⟨k3, List.mem_cons_of_mem _ hm⟩

/-- The id generated for the first insert is the all-zero ObjectId. -/
theorem freshOid_zero : freshOid 0 = oid0 := by decide

/-! ### Further shared concrete values -/

/-- Line item asking for 2 units of product A. -/
def itemA2 : OrderItem := { product_id := pidA, quantity := some 2 }

/-- Line item asking for 1 unit of product B. -/
def itemB1 : OrderItem := { product_id := pidB, quantity := some 1 }

/-- Line item naming the absent product C. -/
def itemC1 : OrderItem := { product_id := pidC, quantity := some 1 }

/-- Spec scenario 6: a request for two units of product A (status omitted,
hence defaulted by the schema). -/
def reqW : Order := { user_id := "u", items := [itemA2], total := 99 }

/-! ### C1 -/

/-- C1 (amended): for every order request in which every referenced product
exists and each line item has an effective quantity at most that product's
stock, create_order succeeds; the computed total is the sum of the per-item
contributions price times quantity; the persisted document carries this
server-computed total, overriding the client-supplied one, together with the
status carried by the request (which the schema defaults to "pending" when
the request omits it); and the response carries the generated id and the
total. -/
theorem C1_success (db : DB) (order : Order)
    (h : ∀ item ∈ order.items, ∃ p, lookupItem db item = some p ∧
        item.quantity.getD 1 ≤ p.stock) :
    create_order db order =
      ({ db with orders := db.orders ++
          [{ order with total := (order.items.map (contribution db)).sum }] },
        .ok (freshOid db.orders.length, (order.items.map (contribution db)).sum)) ∧
    ({ user_id := order.user_id, items := order.items,
        total := (order.items.map (contribution db)).sum } : Order).status = "pending" := by
  refine ⟨?_, rfl⟩
  exact create_order_ok db order (fun x hx => (itemFailure_eq_none_iff db x).mpr (h x hx))

/-- C1 witness: the instantiation at the scenario-6 catalog and request. -/
theorem C1_success_witness :
    create_order dbA reqW =
      ({ dbA with orders := dbA.orders ++
          [{ reqW with total := (reqW.items.map (contribution dbA)).sum }] },
        .ok (freshOid dbA.orders.length, (reqW.items.map (contribution dbA)).sum)) ∧
    ({ user_id := reqW.user_id, items := reqW.items,
        total := (reqW.items.map (contribution dbA)).sum } : Order).status = "pending" :=
  C1_success dbA reqW (by
    intro item hmem
    have h1 : item = itemA2 := by simpa [reqW] using hmem
    rw [h1]
    exact ⟨prodA, rfl, by decide⟩)

/-- A fully valid request that supplies the non-default status "shipped". -/
def reqC1 : Order :=
  { user_id := "u", items := [itemA2], total := 99, status := "shipped" }

/-- C1 counterexample: a valid request carrying the client status "shipped" is
persisted with status "shipped", not "pending"; nothing in create_order
overrides the client-supplied status. -/
theorem C1_counterexample :
    create_order dbA reqC1 =
      ({ dbA with orders := [{ reqC1 with total := 20 }] }, .ok (oid0, 20)) ∧
    ({ reqC1 with total := 20 } : Order).status ≠ "pending" := by
  constructor
  · have h := create_order_ok dbA reqC1 (by decide)
    have hl : lookupItem dbA itemA2 = some prodA := by rfl
    have hc : contribution dbA itemA2 = 20 := by
      unfold contribution
      rw [hl]
      norm_num [prodA, itemA2]
    have hor : dbA.orders = [] := rfl
    rw [h]
    simp [reqC1, hc, hor, freshOid_zero]
  · decide

/-! ### C2 -/

/-- C2 (amended): for every order request containing a line item whose
well-formed product id is not in the catalog, create_order fails and no order
document is persisted; and whenever every item before it passes, the surfaced
error is HTTP 404 with message Product id not found. -/
theorem C2_missing_product (db : DB) (order : Order)
    (pre post : List OrderItem) (item : OrderItem) (k : String)
    (hitems : order.items = pre ++ item :: post)
    (ho : oid item.product_id = some k)
    (hmiss : findProduct db k = none) :
    (∃ e, create_order db order = (db, .error e)) ∧
    ((∀ x ∈ pre, itemFailure db x = none) →
      create_order db order =
        (db, .error ⟨404, "Product " ++ item.product_id ++ " not found"⟩)) := by
  have hf := itemFailure_not_found db item k ho hmiss
  constructor
  · exact create_order_error_of_fail db order item (by simp [hitems]) (by simp [hf])
  · intro hpre
    exact create_order_first_fail db order pre item post _ hitems hpre hf

/-- A request whose single item names the absent product C. -/
def reqC2w : Order := { user_id := "u", items := [itemC1], total := 5 }

/-- C2 witness: a request naming only the absent product C fails with the 404
and leaves the state untouched. -/
theorem C2_missing_product_witness :
    create_order dbA reqC2w =
      (dbA, .error ⟨404, "Product " ++ itemC1.product_id ++ " not found"⟩) :=
  (C2_missing_product dbA reqC2w [] [] itemC1 pidC rfl (by decide) (by decide)).2
    (by intro x hx; simp at hx)

/-- A request asking for 7 units of product A (stock 5) and then for the
absent product C. -/
def reqC2 : Order := { user_id := "u", items := [{ product_id := pidA, quantity := some 7 }, itemC1], total := 0 }

/-- C2 counterexample: the request contains an item whose well-formed product
id is absent from the catalog, yet create_order fails with the HTTP 400
insufficient-stock error of the earlier item, not with the 404 NotFound the
claim promises for every such request. -/
theorem C2_counterexample :
    create_order dbA reqC2 = (dbA, .error ⟨400, "Insufficient stock for A"⟩) ∧
    oid itemC1.product_id = some pidC ∧ findProduct dbA pidC = none ∧
    (400 : Nat) ≠ 404 := by
  refine ⟨?_, by decide, by decide, by decide⟩
  exact create_order_first_fail dbA reqC2 []
    { product_id := pidA, quantity := some 7 } [itemC1] _ rfl (by simp) (by decide)

/-! ### C3 -/

/-- C3: for every order request containing a line item whose requested
quantity exceeds the stock of the product it resolves to, create_order fails
and no order document is persisted; and when every earlier line item is valid
the surfaced error is exactly HTTP 400 with message Insufficient stock for
title. -/
theorem C3_insufficient_stock (db : DB) (order : Order)
    (pre post : List OrderItem) (item : OrderItem) (p : Product)
    (hitems : order.items = pre ++ item :: post)
    (hp : lookupItem db item = some p)
    (hs : p.stock < item.quantity.getD 1) :
    (∃ e, create_order db order = (db, .error e)) ∧
    ((∀ x ∈ pre, itemFailure db x = none) →
      create_order db order =
        (db, .error ⟨400, "Insufficient stock for " ++ p.title⟩)) := by
  have hf := itemFailure_insufficient db item p hp hs
  constructor
  · exact create_order_error_of_fail db order item (by simp [hitems]) (by simp [hf])
  · intro hpre
    exact create_order_first_fail db order pre item post _ hitems hpre hf

/-- Spec scenario 5: two units of A (valid) and then one unit of B whose
stock is 0. -/
def reqC3w : Order := { user_id := "u", items := [itemA2, itemB1], total := 0 }

/-- C3 witness: spec scenario 5, where the earlier item for product A is
valid and product B has stock 0. -/
theorem C3_insufficient_stock_witness :
    create_order dbAB reqC3w =
      (dbAB, .error ⟨400, "Insufficient stock for " ++ prodB.title⟩) :=
  (C3_insufficient_stock dbAB reqC3w [itemA2] [] itemB1 prodB rfl rfl (by decide)).2
    (by decide)

/-! ### C4 -/

/-- C4: create_order never mutates the product catalog; on failure the whole
state is untouched, and on success the only write is the append of the single
new order document to the order collection. -/
theorem C4_frame (db : DB) (order : Order) :
    (create_order db order).1.products = db.products ∧
    (∀ e, (create_order db order).2 = .error e → (create_order db order).1 = db) ∧
    (∀ r, (create_order db order).2 = .ok r →
      (create_order db order).1.orders = db.orders ++ [{ order with total := r.2 }]) := by
  cases hres : processItems db order.items 0 with
  | error e =>
    refine ⟨?_, ?_, ?_⟩
    · simp [create_order, hres]
    · intro e2 _; simp [create_order, hres]
    · intro r hr; simp [create_order, hres] at hr
  | ok T =>
    refine ⟨?_, ?_, ?_⟩
    · simp [create_order, hres, insertOrder]
    · intro e2 he; simp [create_order, hres] at he
    · intro r hr
      simp [create_order, hres] at hr
      simp [create_order, hres, insertOrder, ← hr]

/-- C4 witness: the frame property applied at a failing request. -/
theorem C4_frame_witness :
    (create_order dbA reqC2w).1.products = dbA.products ∧
    (create_order dbA reqC2w).1 = dbA := by
  have h := create_order_first_fail dbA reqC2w [] itemC1 []
    ⟨404, "Product " ++ itemC1.product_id ++ " not found"⟩ rfl (by simp)
    (itemFailure_not_found dbA itemC1 pidC (by decide) (by decide))
  exact ⟨(C4_frame dbA reqC2w).1,
    (C4_frame dbA reqC2w).2.1 ⟨404, "Product " ++ itemC1.product_id ++ " not found"⟩
      (by rw [h])⟩

/-! ### C5 -/

/-- C5: line items are validated in input order and processing stops at the
first failing item: the surfaced error is the failure of the earliest failing
item, and the request truncated right after that item yields the very same
outcome, so the items after it are never consulted. -/
theorem C5_first_failure (db : DB) (order : Order)
    (pre post : List OrderItem) (item : OrderItem) (e : HTTPError)
    (hitems : order.items = pre ++ item :: post)
    (hpre : ∀ x ∈ pre, itemFailure db x = none)
    (hfail : itemFailure db item = some e) :
    create_order db order = (db, .error e) ∧
    create_order db { order with items := pre ++ [item] } = (db, .error e) := by
  refine ⟨create_order_first_fail db order pre item post e hitems hpre hfail, ?_⟩
  exact create_order_first_fail db { order with items := pre ++ [item] }
    pre item [] e rfl hpre hfail

/-- A request naming the absent product C first and an insufficient item for
product A second: two failing items of different kinds. -/
def reqC5 : Order :=
  { user_id := "u", items := [itemC1, { product_id := pidA, quantity := some 7 }], total := 0 }

/-- C5 witness: with two failing items the surfaced error is the 404 of the
earliest one, and dropping the later failing item changes nothing. -/
theorem C5_first_failure_witness :
    create_order dbA reqC5 =
      (dbA, .error ⟨404, "Product " ++ itemC1.product_id ++ " not found"⟩) ∧
    create_order dbA { reqC5 with items := [] ++ [itemC1] } =
      (dbA, .error ⟨404, "Product " ++ itemC1.product_id ++ " not found"⟩) :=
  C5_first_failure dbA reqC5 [] [{ product_id := pidA, quantity := some 7 }] itemC1
    ⟨404, "Product " ++ itemC1.product_id ++ " not found"⟩ rfl (by simp) (by decide)

/-! ### C6 -/

/-- Replacing an omitted quantity by an explicit quantity of 1 anywhere in the
item list leaves the whole validation loop unchanged. -/
theorem processItems_set_quantity (db : DB) (pid : String) :
    ∀ (pre post : List OrderItem) (t : ℚ),
      processItems db (pre ++ { product_id := pid, quantity := none } :: post) t =
      processItems db (pre ++ { product_id := pid, quantity := some 1 } :: post) t := by
  intro pre
  induction pre with
  | nil =>
    intro post t
    simp only [List.nil_append]
    have hf : itemFailure db { product_id := pid, quantity := none } =
        itemFailure db { product_id := pid, quantity := some 1 } := by
      unfold itemFailure; rfl
    have hc : contribution db { product_id := pid, quantity := none } =
        contribution db { product_id := pid, quantity := some 1 } := by
      unfold contribution lookupItem; rfl
    rw [processItems_cons, processItems_cons, hf, hc]
  | cons x rest ih =>
    intro post t
    simp only [List.cons_append]
    rw [processItems_cons, processItems_cons]
    cases itemFailure db x with
    | some e => rfl
    | none => exact ih post _

/-- C6: a line item that omits its quantity is treated exactly as quantity 1,
both in the stock check and in the total: the validation loop and the HTTP
response are identical to those of the request with an explicit quantity 1. -/
theorem C6_default_quantity (db : DB) (order : Order)
    (pre post : List OrderItem) (pid : String)
    (hitems : order.items = pre ++ { product_id := pid, quantity := none } :: post) :
    (∀ t, processItems db order.items t =
      processItems db (pre ++ { product_id := pid, quantity := some 1 } :: post) t) ∧
    (create_order db order).2 =
      (create_order db
        { order with items := pre ++ { product_id := pid, quantity := some 1 } :: post }).2 := by
  constructor
  · intro t; rw [hitems]; exact processItems_set_quantity db pid pre post t
  · show (create_order db order).2 = _
    unfold create_order
    rw [hitems, processItems_set_quantity db pid pre post 0]
    cases processItems db (pre ++ { product_id := pid, quantity := some 1 } :: post) 0 with
    | error e => rfl
    | ok T => rfl

/-- A request for product A with the quantity omitted. -/
def reqC6 : Order :=
  { user_id := "u", items := [{ product_id := pidA, quantity := none }], total := 0 }

/-- C6 witness: the instantiation at a one-item request for product A with
the quantity omitted. -/
theorem C6_default_quantity_witness :
    (∀ t, processItems dbA reqC6.items t =
      processItems dbA ([] ++ { product_id := pidA, quantity := some 1 } :: []) t) ∧
    (create_order dbA reqC6).2 =
      (create_order dbA
        { reqC6 with items := [] ++ { product_id := pidA, quantity := some 1 } :: [] }).2 :=
  C6_default_quantity dbA reqC6 [] [] pidA rfl

/-! ### C7 -/

/-- Every passing contribution is non-negative as soon as all catalog prices
and the effective quantity are. -/
theorem contribution_nonneg (db : DB) (item : OrderItem)
    (hprice : ∀ kp ∈ db.products, 0 ≤ kp.2.price)
    (hq : 0 ≤ item.quantity.getD 1) :
    0 ≤ contribution db item := by
  unfold contribution
  cases hl : lookupItem db item with
  | none => simp
  | some p =>
    have hmem : ∃ k2, (k2, p) ∈ db.products := by
      unfold lookupItem at hl
      cases ho : oid item.product_id with
      | none => rw [ho] at hl; simp at hl
      | some k =>
        rw [ho] at hl
        simp only [Option.some_bind] at hl
        exact lookup_mem hl
    obtain ⟨k2, hk2⟩ := hmem
    have hp0 : 0 ≤ p.price := hprice (k2, p) hk2
    have hq2 : (0 : ℚ) ≤ ((item.quantity.getD 1 : Int) : ℚ) := by exact_mod_cast hq
    simpa using mul_nonneg hp0 hq2

/-- C7 (amended): create_product validates no sign at all - every product,
whatever its price and stock, is inserted into the catalog as given; and the
total of a successfully placed order is non-negative provided every catalog
price and every effective quantity of the request is non-negative. -/
theorem C7_nonneg_total (db : DB) (order : Order)
    (hprice : ∀ kp ∈ db.products, 0 ≤ kp.2.price)
    (hqty : ∀ item ∈ order.items, 0 ≤ item.quantity.getD 1) :
    (∀ p, (create_product db p).2.products =
      db.products ++ [((create_product db p).1, p)]) ∧
    (∀ db2 id t, create_order db order = (db2, .ok (id, t)) → 0 ≤ t) := by
  constructor
  · intro p; rfl
  · intro db2 id t h
    cases hres : processItems db order.items 0 with
    | error e => simp [create_order, hres] at h
    | ok T =>
      simp [create_order, hres, insertOrder] at h
      obtain ⟨hall, hT⟩ := processItems_ok_inv db order.items 0 T hres
      have ht : t = T := by
        have := h.2
        simp [Prod.ext_iff] at this
        exact this.2.symm
      rw [ht, hT, zero_add]
      refine List.sum_nonneg ?_
      intro q hq
      obtain ⟨it, hit, hq2⟩ := List.mem_map.mp hq
      rw [← hq2]
      exact contribution_nonneg db it hprice (hqty it hit)

/-- C7 witness: the amended statement applied at the scenario-6 catalog and
request. -/
theorem C7_nonneg_total_witness :
    (∀ p, (create_product dbA p).2.products =
      dbA.products ++ [((create_product dbA p).1, p)]) ∧
    (∀ db2 id t, create_order dbA reqW = (db2, .ok (id, t)) → 0 ≤ t) :=
  C7_nonneg_total dbA reqW
    (by
      intro kp hkp
      have h1 : kp = (pidA, prodA) := by simpa [dbA] using hkp
      rw [h1]
      norm_num [prodA])
    (by decide)

/-- A product whose price is negative: the pydantic model accepts it. -/
def prodNeg : Product := { title := "N", price := -10, stock := 5 }

/-- The empty database. -/
def db0 : DB := { products := [], orders := [] }

/-- A request for one unit of the product stored under the first generated
id. -/
def reqNeg : Order :=
  { user_id := "u", items := [{ product_id := oid0, quantity := some 1 }], total := 0 }

/-- C7 counterexample: create_product happily accepts a product with price
-10 (no non-negativity validation exists in the schema), and an order for one
unit of it is then persisted with the negative total -10. -/
theorem C7_counterexample :
    (create_product db0 prodNeg).2.products = [(oid0, prodNeg)] ∧
    prodNeg.price < 0 ∧
    create_order (create_product db0 prodNeg).2 reqNeg =
      ({ products := [(oid0, prodNeg)], orders := [{ reqNeg with total := -10 }] },
        .ok (oid0, -10)) ∧
    (-10 : ℚ) < 0 := by
  have hprods : (create_product db0 prodNeg).2.products = [(oid0, prodNeg)] := by
    show [] ++ [(freshOid 0, prodNeg)] = [(oid0, prodNeg)]
    rw [freshOid_zero]
    rfl
  refine ⟨hprods, by norm_num [prodNeg], ?_, by norm_num⟩
  have h := create_order_ok (create_product db0 prodNeg).2 reqNeg (by decide)
  have hl : lookupItem (create_product db0 prodNeg).2
      { product_id := oid0, quantity := some 1 } = some prodNeg := by
    unfold lookupItem findProduct
    rw [hprods]
    decide
  have hc : contribution (create_product db0 prodNeg).2
      { product_id := oid0, quantity := some 1 } = -10 := by
    unfold contribution
    rw [hl]
    norm_num [prodNeg]
  rw [h]
  have hord : (create_product db0 prodNeg).2.orders = [] := rfl
  simp [reqNeg, hc, hord, hprods, freshOid_zero, DB.mk.injEq]

/-! ### C8 -/

/-- C8 (amended): line-item quantities are never validated: whatever integer
quantities the request carries - positive, zero or negative - a successful
call persists the items of the request completely unchanged; the only check a
quantity undergoes is the comparison against the stock. -/
theorem C8_items_persisted (db : DB) (order : Order) (db2 : DB) (id : String) (t : ℚ)
    (h : create_order db order = (db2, .ok (id, t))) :
    db2.orders = db.orders ++ [{ order with total := t }] ∧
    ({ order with total := t } : Order).items = order.items := by
  refine ⟨?_, rfl⟩
  cases hres : processItems db order.items 0 with
  | error e => simp [create_order, hres] at h
  | ok T =>
    simp [create_order, hres, insertOrder, Prod.ext_iff] at h
    obtain ⟨hdb, _, hT⟩ := h
    rw [← hdb, ← hT]

/-- C8 witness: the amended statement applied at a concrete success. -/
theorem C8_items_persisted_witness :
    ({ dbA with orders := dbA.orders ++
        [{ reqW with total := (reqW.items.map (contribution dbA)).sum }] } : DB).orders =
      dbA.orders ++ [{ reqW with total := (reqW.items.map (contribution dbA)).sum }] ∧
    ({ reqW with total := (reqW.items.map (contribution dbA)).sum } : Order).items =
      reqW.items :=
  C8_items_persisted dbA reqW _ _ _ (create_order_ok dbA reqW (by decide))

/-- A product with stock 0 under the id of product A. -/
def prodZ : Product := { title := "Z", price := 10, stock := 0 }

/-- Catalog holding only the zero-stock product Z. -/
def dbZ : DB := { products := [(pidA, prodZ)], orders := [] }

/-- A request for -2 units of product Z. -/
def reqZ : Order :=
  { user_id := "u", items := [{ product_id := pidA, quantity := some (-2) }], total := 0 }

/-- C8 counterexample: a request whose single line item carries the quantity
-2 sails through the stock check (0 < -2 is false even with stock 0) and is
persisted, with the negative total -20; so orders with non-positive
quantities are persisted. -/
theorem C8_counterexample :
    create_order dbZ reqZ =
      ({ dbZ with orders := [{ reqZ with total := -20 }] }, .ok (oid0, -20)) ∧
    reqZ.items.all (fun it => 0 < it.quantity.getD 1) = false := by
  constructor
  · have h := create_order_ok dbZ reqZ (by decide)
    have hl : lookupItem dbZ { product_id := pidA, quantity := some (-2) } =
        some prodZ := by rfl
    have hc : contribution dbZ { product_id := pidA, quantity := some (-2) } = -20 := by
      unfold contribution
      rw [hl]
      norm_num [prodZ]
    have hord : dbZ.orders = [] := rfl
    rw [h]
    simp [reqZ, hc, hord, freshOid_zero]
  · decide

/-! ### C9 -/

/-- C9 (amended): for every order request containing a line item whose
product_id does not parse as an ObjectId, create_order fails and nothing is
persisted; and whenever every item before it passes, the failure is exactly
HTTP 400 with message Invalid id - a status distinct from the 404 of
NotFound. An earlier failing line item determines the error instead. -/
theorem C9_invalid_id (db : DB) (order : Order)
    (pre post : List OrderItem) (item : OrderItem)
    (hitems : order.items = pre ++ item :: post)
    (hbad : oid item.product_id = none) :
    (∃ e, create_order db order = (db, .error e)) ∧
    ((∀ x ∈ pre, itemFailure db x = none) →
      create_order db order = (db, .error ⟨400, "Invalid id"⟩) ∧ (400 : Nat) ≠ 404) := by
  have hf := itemFailure_invalid db item hbad
  constructor
  · exact create_order_error_of_fail db order item (by simp [hitems]) (by simp [hf])
  · intro hpre
    exact ⟨create_order_first_fail db order pre item post _ hitems hpre hf, by decide⟩

/-- A line item whose product_id is not a well-formed ObjectId. -/
def itemBadId : OrderItem := { product_id := "zz", quantity := some 1 }

/-- A request whose single item has a malformed id. -/
def reqC9 : Order := { user_id := "u", items := [itemBadId], total := 0 }

/-- C9 witness: the instantiation at a request with the malformed id zz. -/
theorem C9_invalid_id_witness :
    create_order dbA reqC9 = (dbA, .error ⟨400, "Invalid id"⟩) ∧ (400 : Nat) ≠ 404 :=
  (C9_invalid_id dbA reqC9 [] [] itemBadId rfl (by decide)).2 (by simp)

/-- A request naming the absent product C before the malformed-id item. -/
def reqC9x : Order := { user_id := "u", items := [itemC1, itemBadId], total := 0 }

/-- C9 counterexample: the request contains a line item with a malformed
product_id, yet create_order fails with the 404 NotFound of the earlier item
naming the absent product C - the malformed id is never reached, so the call
does not fail with 400 Invalid id as the claim promises for every such
request. -/
theorem C9_counterexample :
    create_order dbA reqC9x =
      (dbA, .error ⟨404, "Product " ++ itemC1.product_id ++ " not found"⟩) ∧
    oid itemBadId.product_id = none ∧
    (⟨404, "Product " ++ itemC1.product_id ++ " not found"⟩ : HTTPError) ≠
      ⟨400, "Invalid id"⟩ := by
  refine ⟨?_, by decide, by decide⟩
  exact create_order_first_fail dbA reqC9x [] itemC1 [itemBadId] _ rfl
    (by simp) (by decide)

/-! ### C10 -/

/-- C10 (amended): for every order request whose items list is empty,
create_order succeeds without consulting the catalog (the same response comes
out whatever the product collection holds), persists an order document with
total 0 and the status carried by the request (which the schema defaults to
"pending" when omitted), and answers with total 0. -/
theorem C10_empty_items (db : DB) (order : Order) (h : order.items = []) :
    create_order db order =
      ({ db with orders := db.orders ++ [{ order with total := 0 }] },
        .ok (freshOid db.orders.length, 0)) ∧
    (∀ ps, (create_order { products := ps, orders := db.orders } order).2 =
      .ok (freshOid db.orders.length, 0)) ∧
    ({ user_id := order.user_id, items := order.items, total := 0 } : Order).status =
      "pending" := by
  have key : ∀ db2 : DB, create_order db2 order =
      ({ db2 with orders := db2.orders ++ [{ order with total := 0 }] },
        .ok (freshOid db2.orders.length, 0)) := by
    intro db2
    have hx := create_order_ok db2 order (by rw [h]; intro x hx; simp at hx)
    rw [h] at hx
    simpa [h] using hx
  refine ⟨key db, ?_, rfl⟩
  intro ps
  rw [key { products := ps, orders := db.orders }]

/-- A request with an empty items list and the status omitted. -/
def reqC10 : Order := { user_id := "u", items := [], total := 7 }

/-- C10 witness: the instantiation at the catalog of product A and an
empty-items request. -/
theorem C10_empty_items_witness :
    create_order dbA reqC10 =
      ({ dbA with orders := dbA.orders ++ [{ reqC10 with total := 0 }] },
        .ok (freshOid dbA.orders.length, 0)) ∧
    (∀ ps, (create_order { products := ps, orders := dbA.orders } reqC10).2 =
      .ok (freshOid dbA.orders.length, 0)) ∧
    ({ user_id := reqC10.user_id, items := reqC10.items, total := 0 } : Order).status =
      "pending" :=
  C10_empty_items dbA reqC10 rfl

/-- A request with an empty items list that supplies the status "done". -/
def reqC10x : Order := { user_id := "u", items := [], total := 5, status := "done" }

/-- C10 counterexample: an empty-items request carrying the status "done" is
persisted with status "done", not "pending"; the rest of the claim (total 0,
success) does hold. -/
theorem C10_counterexample :
    create_order dbA reqC10x =
      ({ dbA with orders := [{ reqC10x with total := 0 }] }, .ok (oid0, 0)) ∧
    ({ reqC10x with total := 0 } : Order).status ≠ "pending" := by
  constructor
  · have h := create_order_ok dbA reqC10x (by decide)
    have hord : dbA.orders = [] := rfl
    rw [h]
    simp [reqC10x, hord, freshOid_zero]
  · decide

end Shop
